import Mathlib

/-!
# Verification of the IELTS speaking-test session state machine

Shallow embedding of the test-session logic of
`src/app/page.tsx` and of the API route handlers
(`/api/conversation`, `/api/evaluate`) of the repository.

Modelling conventions, documented once here:

* React `useState` values become fields of `AppState`.  An event handler
  is embedded as a function `AppState → ... → AppState`, threading the
  committed state explicitly.  A functional update
  `setX (prev => f prev)` reads the **current** state; reading a state
  variable `x` directly inside a handler reads the **closure snapshot**,
  i.e. the committed state from the render in which the handler was
  created.  `endTest` (page.tsx line 149) is called synchronously from
  `processUserResponse` (line 360) and from the timer callback
  (line 134); it reads `allTranscriptions`, `testSession` and `testPart`
  from its closure.  We therefore give `endTest` an explicit `snap`
  argument carrying the closure values; the caller passes the state that
  was committed when the closure was created: `processUserResponse`
  passes the state from before the event (its own render snapshot,
  which does *not* yet contain the utterance pushed by
  `setAllTranscriptions(prev => [...prev, userText])`), while the timer
  effect — torn down and re-created on every committed change of
  `conversationMode`, `testSession` or `timeRemaining` (line 147) —
  passes the state committed just before the tick.
* Events (a click handler run to completion, one timer tick, one
  collaborator response arrival) are serialized, matching the spec's
  single-threaded event model; React commits between events.
* `Date` timestamps, audio playback (`speakText`) and the
  loading/recording UI flags are irrelevant to every claim and are not
  modelled.  Collaborator calls are recorded in `scoringCalls` (the
  transcripts sent to `/api/evaluate`, in order); the scoring
  collaborator is modelled as a deterministic success whose stored
  result is the pair (transcript, testPart).
* JavaScript numbers holding second counts are embedded as `Int`
  (`timeRemaining` can be probed against 0) and question counts as
  `Nat` (they only ever increment from 0).
-/

/-- One turn of dialogue: the `role`/`content` of a `ConversationMessage`
(page.tsx line 61); the `timestamp`/`audioUrl` fields carry no logic. -/
inductive Role where
  | user
  | assistant
deriving DecidableEq, Repr

structure Message where
  role : Role
  content : String
deriving DecidableEq, Repr

/-- `TestSession` (page.tsx line 68); `startTime : Date` is not modelled
(it is never read by the session logic). -/
structure TestSession where
  currentTopic : Nat
  questionsAsked : Nat
  totalQuestions : Nat
  isComplete : Bool
deriving DecidableEq, Repr

/-- Errors observable from a session operation.  The embedded code only
ever produces `typeError` (the JavaScript TypeError raised by a property
access on `undefined`); `invalidPartError` and `invalidStateError` are
the spec's error taxonomy, present here so that statements can compare
the code's behaviour against the spec's words. -/
inductive OpError where
  | invalidPartError
  | invalidStateError
  | typeError
deriving DecidableEq, Repr

/-- The component state relevant to the session state machine:
the `useState` hooks of page.tsx lines 77-92 that the claims mention,
plus the log of scoring-collaborator calls and the stored evaluation. -/
structure AppState where
  testPart : Nat
  conversationMode : Bool
  testSession : Option TestSession
  timeRemaining : Int
  testComplete : Bool
  allTranscriptions : List String
  conversation : List Message
  scoringCalls : List String
  evaluation : Option (String × Nat)
deriving DecidableEq, Repr

/-- The initial render: no session, everything empty (page.tsx lines 77-92). -/
def initState : AppState :=
  { testPart := 1
    conversationMode := false
    testSession := none
    timeRemaining := 0
    testComplete := false
    allTranscriptions := []
    conversation := []
    scoringCalls := []
    evaluation := none }

/-- An entry of `IELTS_TIMING` (page.tsx lines 29-33).  The three entries
have different field sets in the source, hence an inductive with one
shape per part. -/
inductive TimingEntry where
  | p1 (duration questionsPerTopic topics : Nat)
  | p2 (duration preparationTime speakingTime : Nat)
  | p3 (duration questions : Nat)
deriving DecidableEq, Repr

/-- `IELTS_TIMING[part]`: `undefined` (here `none`) off the three keys. -/
def IELTS_TIMING : Nat → Option TimingEntry
  | 1 => some (.p1 4 3 2)
  | 2 => some (.p2 3 1 2)
  | 3 => some (.p3 5 4)
  | _ => none

def TimingEntry.durationMin : TimingEntry → Nat
  | .p1 d _ _ => d
  | .p2 d _ _ => d
  | .p3 d _ => d

/-- The question bank `questions` (page.tsx lines 5-26). -/
def questionBank : Nat → List String
  | 1 => ["Tell me about your hometown. What do you like most about it?",
          "Do you work or study? What do you enjoy most about your work/studies?",
          "What are your hobbies? How long have you been interested in them?",
          "Describe your daily routine. What's your favorite part of the day?",
          "Tell me about your family. Are you close to your family members?"]
  | 2 => ["Describe a memorable event from your childhood. You should say: what the event was, when it happened, who was involved, and explain why it was memorable.",
          "Talk about a person who has influenced you. You should say: who this person is, how you know them, what influence they had on you, and explain why this person is important to you.",
          "Describe a place you would like to visit. You should say: where it is, what you can do there, what it looks like, and explain why you want to visit this place.",
          "Talk about a skill you would like to learn. You should say: what the skill is, why you want to learn it, how you would learn it, and explain how this skill would be useful to you."]
  | 3 => ["What role does technology play in modern education?",
          "How do you think social media affects relationships between people?",
          "What are the advantages and disadvantages of living in a big city?",
          "How important is it for people to learn about their cultural heritage?",
          "Do you think traditional skills are being lost in modern society? Why or why not?"]
  | _ => []

/-- `qs[Math.floor(Math.random() * qs.length)]` (page.tsx line 211); the
random draw is modelled by an arbitrary index `q`, reduced mod the bank
size. -/
def pickQuestion (part q : Nat) : String :=
  let qs := questionBank part
  qs.getD (q % qs.length) ""

/-- `initializeTestSession` (page.tsx lines 101-126): computes the new
`TestSession` and the `timeRemaining` (seconds) it installs.  For a part
outside {1,2,3} the `IELTS_TIMING` lookup is `undefined` and the source
dereferences it (`part3Timing.questions` in the trailing `else`), which
raises a TypeError before any state is set. -/
def initializeTestSession (part : Nat) : Except OpError (TestSession × Int) :=
  let timing := IELTS_TIMING part
  if part = 1 then
    match timing with
    | some (.p1 d q t) =>
        .ok ({ currentTopic := 1, questionsAsked := 0,
               totalQuestions := q * t, isComplete := false }, ((d * 60 : Nat) : Int))
    | _ => .error .typeError
  else if part = 2 then
    match timing with
    | some e =>
        .ok ({ currentTopic := 1, questionsAsked := 0,
               totalQuestions := 1, isComplete := false }, ((e.durationMin * 60 : Nat) : Int))
    | none => .error .typeError
  else
    match timing with
    | some (.p3 d q) =>
        .ok ({ currentTopic := 1, questionsAsked := 0,
               totalQuestions := q, isComplete := false }, ((d * 60 : Nat) : Int))
    | _ => .error .typeError

/-- The examiner's closing line spoken by `endTest` (page.tsx line 162). -/
def completionMessage : String :=
  "Thank you. That concludes your IELTS Speaking test. I will now provide you with your evaluation."

/-- `allTranscriptions.join(' ')` (page.tsx line 155). -/
def joinSpace : List String → String
  | [] => ""
  | [x] => x
  | x :: y :: ys => x ++ " " ++ joinSpace (y :: ys)

/-- JavaScript `String.prototype.trim()`: strip leading and trailing
whitespace.  (Lean's own `String.trim` is extensionally the same but is
built on byte-position recursion that the kernel cannot evaluate, so the
embedding uses this structural equivalent.) -/
def strTrim (s : String) : String :=
  String.mk (((s.data.dropWhile Char.isWhitespace).reverse.dropWhile Char.isWhitespace).reverse)

/-- `endTest` (page.tsx lines 149-172).  `snap` carries the closure
values (`testSession`, `allTranscriptions`, `testPart`), `s` the current
committed state the functional updates apply to.  A scoring-collaborator
call (`evaluateCompleteTest`, line 158) happens exactly when the closure's
combined transcript is non-blank; it is logged in `scoringCalls` and its
(deterministic) result is stored in `evaluation`. -/
def endTest (snap s : AppState) : AppState :=
  match snap.testSession with
  | none => s
  | some _ =>
      let s1 := { s with
        testSession := s.testSession.map (fun ss : TestSession => { ss with isComplete := true })
        testComplete := true }
      let combined := joinSpace snap.allTranscriptions
      let s2 :=
        if strTrim combined ≠ "" then
          { s1 with scoringCalls := s1.scoringCalls ++ [combined]
                    evaluation := some (combined, snap.testPart) }
        else s1
      { s2 with conversation := s2.conversation ++ [Message.mk Role.assistant completionMessage] }

/-- The timer callback (page.tsx lines 131-139): `prev <= 1` runs
`endTest()` (closure = the state committed before this tick, the effect
being re-created on every commit) and returns 0, otherwise `prev - 1`. -/
def timerTick (s : AppState) : AppState :=
  if s.timeRemaining ≤ 1 then { endTest s s with timeRemaining := 0 }
  else { s with timeRemaining := s.timeRemaining - 1 }

/-- `stopConversationMode` (page.tsx lines 431-442); note that
`evaluation` is *not* cleared there. -/
def stopConversationMode (s : AppState) : AppState :=
  { s with
    conversationMode := false
    conversation := []
    testSession := none
    timeRemaining := 0
    testComplete := false
    allTranscriptions := [] }

/-- `startConversationMode` (page.tsx lines 423-429). -/
def startConversationState (s : AppState) : AppState :=
  { s with conversationMode := true, conversation := [], evaluation := none,
           testComplete := false }

/-- Selecting the part and entering conversation mode: the `testPart`
select, `startConversationMode`, and the initialization effect
(page.tsx lines 199-222) which calls `initializeTestSession` and seeds
the conversation with the examiner introduction and a first question
(not counted in `questionsAsked`).  On an invalid part the effect throws
(see `initializeTestSession`) before any session state is set. -/
def startSession (s : AppState) (part q : Nat) : AppState × Option OpError :=
  let s0 := { startConversationState s with testPart := part }
  match initializeTestSession part with
  | .error e => (s0, some e)
  | .ok (sess, secs) =>
      let s1 := { s0 with
        testSession := some sess
        timeRemaining := secs
        allTranscriptions := []
        testComplete := false }
      let d := match IELTS_TIMING part with
        | some e => e.durationMin
        | none => 0
      let intro := "Hello! I'm your IELTS Speaking examiner. Welcome to Part "
        ++ toString part ++ " of your IELTS Speaking test. This part will last "
        ++ toString d ++ " minutes. Let's begin."
      ({ s1 with conversation := [Message.mk Role.assistant intro,
                                  Message.mk Role.assistant (pickQuestion part q)] }, none)

/-- Outcome of the in-flight `/api/conversation` fetch inside
`processUserResponse`: `ok` carries `data.examinerResponse` and
`data.testComplete`; `httpError` covers a network failure or a non-2xx
status (both land in the `catch`, page.tsx lines 401-412). -/
inductive DialogueResult where
  | ok (examinerResponse : String) (testComplete : Bool)
  | httpError
deriving DecidableEq, Repr

/-- The fallback examiner line of the `catch` branch (page.tsx line 404). -/
def fallbackResponse : String :=
  "Thank you for your response. Can you tell me more about that?"

/-- First, synchronous half of `processUserResponse` (page.tsx lines
336-362): guard, append the user message and transcription, increment
`questionsAsked`, and either finish the test (closure snapshot = `s`) or
dispatch the dialogue fetch.  The returned flag says whether the fetch
was dispatched.  No path raises an error: the guard is a bare `return`. -/
def processUserResponsePre (s : AppState) (t : String) : AppState × Bool :=
  match s.testSession with
  | none => (s, false)
  | some sess =>
      if sess.isComplete then (s, false)
      else
        let s1 := { s with
          conversation := s.conversation ++ [Message.mk Role.user t]
          allTranscriptions := s.allTranscriptions ++ [t] }
        let updated : TestSession := { sess with questionsAsked := sess.questionsAsked + 1 }
        let s2 := { s1 with testSession := some updated }
        if updated.totalQuestions ≤ updated.questionsAsked then (endTest s s2, false)
        else (s2, true)

/-- Continuation of `processUserResponse` once the dialogue response is
in (page.tsx lines 379-412).  `snap` is the dispatching handler's render
snapshot (used by the `endTest` that a `testComplete` marker triggers);
`s` is the committed state when the response arrives — possibly long
after, and possibly after an `abort`.  There is no session identity or
generation check anywhere in this code. -/
def dialogueContinuation (snap s : AppState) : DialogueResult → AppState
  | .httpError =>
      { s with conversation := s.conversation ++ [Message.mk Role.assistant fallbackResponse] }
  | .ok r tc =>
      if tc then endTest snap s
      else { s with conversation := s.conversation ++ [Message.mk Role.assistant r] }

/-- `processUserResponse` run to completion in one event (dialogue
response, when dispatched, consumed before the next event).  The error
component records that the source raises nothing on any path. -/
def processUserResponse (s : AppState) (t : String) (d : DialogueResult) :
    AppState × Option OpError :=
  let p := processUserResponsePre s t
  (if p.2 then dialogueContinuation s p.1 d else p.1, none)

/-! ## The event-step relation -/

/-- One externally triggered event against the committed state, each
guarded exactly as in the source: `start` by the part select offering
only 1/2/3; `tick` by the timer effect condition (page.tsx line 130);
dialogue arrival by nothing at all (no staleness guard).  `finalize`
exposes `endTest` with a fresh closure, as the timer path does. -/
inductive Step : AppState → AppState → Prop where
  | start (s : AppState) (part q : Nat) (hp : part = 1 ∨ part = 2 ∨ part = 3) :
      Step s (startSession s part q).1
  | tick (s : AppState) (h1 : s.conversationMode = true)
      (h2 : s.testSession.isSome = true) (h3 : 0 < s.timeRemaining) :
      Step s (timerTick s)
  | record (s : AppState) (t : String) (d : DialogueResult) :
      Step s (processUserResponse s t d).1
  | recordPre (s : AppState) (t : String) :
      Step s (processUserResponsePre s t).1
  | dialogue (s snap : AppState) (d : DialogueResult) :
      Step s (dialogueContinuation snap s d)
  | finalize (s : AppState) :
      Step s (endTest s s)
  | abort (s : AppState) :
      Step s (stopConversationMode s)

/-- States reachable from the initial render. -/
inductive Reachable : AppState → Prop where
  | init : Reachable initState
  | step {s s' : AppState} : Reachable s → Step s s' → Reachable s'

/-! ## Observers used by claim statements -/

/-- `questionsAsked ≤ totalQuestions`, when a session exists. -/
def qaBound : Option TestSession → Bool
  | none => true
  | some sess => sess.questionsAsked ≤ sess.totalQuestions

/-- The session exists, is complete, and recorded no candidate answer. -/
def sessionCompletedZero (s : AppState) : Bool :=
  match s.testSession with
  | some sess => sess.isComplete && sess.questionsAsked == 0
  | none => false

/-- `totalQuestions` installed by a successful start, `none` on a throw. -/
def startTotalQuestions (part : Nat) : Option Nat :=
  match initializeTestSession part with
  | .ok (sess, _) => some sess.totalQuestions
  | .error _ => none

/-- The error a start attempt raises, if any. -/
def startError (part : Nat) : Option OpError :=
  match initializeTestSession part with
  | .ok _ => none
  | .error e => some e

/-! ## The `/api/evaluate` route (Scoring Collaborator boundary) -/

/-- A JSON value, the result of a successful `JSON.parse`. -/
inductive Json where
  | null
  | jbool (b : Bool)
  | jnum (n : Int)
  | jstr (s : String)
  | jarr (elems : List Json)
  | jobj (fields : List (String × Json))

/-- The chat model's message content as the route sees it, classified by
what the JavaScript builtin `JSON.parse` does to it: `nullContent` for a
null `content` (the route substitutes the literal string `'{}'`, which
parses to the empty object), `parsed v` when the string parses to `v`,
`unparseable` when `JSON.parse` throws. -/
inductive ModelContent where
  | nullContent
  | parsed (v : Json)
  | unparseable (raw : String)

/-- A NextResponse as produced by the evaluate route: an error body with
a status, or a 200 carrying the JSON payload. -/
inductive ApiResp where
  | err (status : Nat) (msg : String)
  | ok (payload : Json)

/-- The POST handler of the evaluate route (the scoring endpoint):
guard on a missing transcription, then
`JSON.parse(response.choices[0].message.content || '{}')` returned
directly; every exception — the OpenAI call failing (`.error ()`) or
`JSON.parse` throwing — lands in the one `catch`, which answers
500 `'Evaluation failed'`. -/
def evaluatePOST (transcription : String) (outcome : Except Unit ModelContent) : ApiResp :=
  if transcription = "" then .err 400 "No transcription provided"
  else
    match outcome with
    | .error _ => .err 500 "Evaluation failed"
    | .ok .nullContent => .ok (.jobj [])
    | .ok (.parsed v) => .ok v
    | .ok (.unparseable _) => .err 500 "Evaluation failed"

/-! ## The `/api/conversation` route (Dialogue Collaborator boundary) -/

/-- The request body after destructuring with defaults
(`questionsAsked = 0, totalQuestions = 0, timeRemaining = 0`,
src/unnamed/part_001 line 6): a body omitting those fields yields 0s. -/
structure ConvReq where
  userResponse : String
  testPart : Int
  questionsAsked : Int
  totalQuestions : Int
  timeRemaining : Int
deriving DecidableEq, Repr

/-- A response of the conversation route: an error body, the early
`testComplete: true` answer, or a normal examiner turn (which echoes
`questionsAsked + 1`). -/
inductive ConvResp where
  | err (status : Nat) (msg : String)
  | complete (examinerResponse : String)
  | next (examinerResponse : String) (questionsAsked : Int)
deriving DecidableEq, Repr

/-- The fixed closing utterance of the early-complete branch. -/
def closingUtterance : String :=
  "Thank you. That concludes this part of your IELTS Speaking test."

/-- Default examiner line used when the model content is null or blank. -/
def defaultResponseMsg : String := "Thank you for your response."

/-- The POST handler of `/api/conversation` (src/unnamed/part_001):
userResponse guard, API-key guard, then the end-of-test check
`questionsAsked >= totalQuestions || timeRemaining <= 0` answered with
the fixed closing utterance and `testComplete: true` before any model
call.  Otherwise the dialogue model is invoked (`outcome`); its thrown
errors land in the catch (500).  The returned flag records whether the
model was invoked. -/
def conversationPOST (keyPresent : Bool) (req : ConvReq)
    (outcome : Except Unit (Option String)) : ConvResp × Bool :=
  if req.userResponse = "" then (.err 400 "No user response provided", false)
  else if keyPresent = false then (.err 500 "OpenAI API key not configured", false)
  else if req.questionsAsked ≥ req.totalQuestions ∨ req.timeRemaining ≤ 0 then
    (.complete closingUtterance, false)
  else
    match outcome with
    | .error _ => (.err 500 "Failed to generate examiner response", true)
    | .ok content =>
        let resp := match content with
          | some c => if strTrim c = "" then defaultResponseMsg else strTrim c
          | none => defaultResponseMsg
        (.next resp (req.questionsAsked + 1), true)

/-! ## Concrete traces used by counterexamples and code evaluations -/

/-- Part 2 session directly after its single candidate utterance
"hello": the question policy (1) is exhausted, so `endTest` runs with
the dispatching handler's closure snapshot. -/
def part2AfterUtterance : AppState :=
  (processUserResponse (startSession initState 2 0).1 "hello" (.ok "x" false)).1

/-- Part 1 session after one candidate utterance whose dialogue fetch is
still in flight (the state between `processUserResponsePre` and the
response arrival — the spec's `AwaitingExaminer` sub-phase). -/
def midSession : AppState :=
  (processUserResponsePre (startSession initState 1 0).1 "a").1

/-- `midSession` after `abort()` (End Conversation). -/
def abortedSession : AppState := stopConversationMode midSession

/-- The stale dialogue response for `midSession` arriving after the
abort: no staleness guard exists, the continuation just runs. -/
def staleArrival : AppState :=
  dialogueContinuation midSession abortedSession (.ok "And what about your family?" false)

/-- One Part-1 candidate turn answered normally by the dialogue
collaborator. -/
def recordTurn (s : AppState) (t : String) : AppState :=
  (processUserResponse s t (.ok "Next question?" false)).1

/-- A full Part-1 run: all six candidate answers given while time
remains.  The sixth exhausts the question count and finalizes. -/
def part1Exhausted : AppState :=
  recordTurn (recordTurn (recordTurn (recordTurn (recordTurn (recordTurn
    (startSession initState 1 0).1 "a") "b") "c") "d") "e") "f"

/-- `part1Exhausted` after its timer (still at 240 s — question
exhaustion does not stop the interval) has run out. -/
def part1ExhaustedTimedOut : AppState := timerTick^[240] part1Exhausted

/-- Strengthened session invariant used for the induction: the count is
bounded, and strictly below the target while the session is open (the
next increment can then only land on the boundary, where completion is
set in the same event). -/
def SessInv : Option TestSession → Prop
  | none => True
  | some sess =>
      sess.questionsAsked ≤ sess.totalQuestions ∧
      (sess.isComplete = false → sess.questionsAsked < sess.totalQuestions)

/-- Full inductive invariant. -/
def MachineInv (s : AppState) : Prop := 0 ≤ s.timeRemaining ∧ SessInv s.testSession


/-! ## Basic lemmas about `endTest` and `timerTick` -/

lemma endTest_none (snap s : AppState) (h : snap.testSession = none) :
    endTest snap s = s := by
  unfold endTest
  rw [h]

lemma endTest_timeRemaining (snap s : AppState) :
    (endTest snap s).timeRemaining = s.timeRemaining := by
  unfold endTest
  cases snap.testSession with
  | none => rfl
  | some x =>
      dsimp only
      split <;> rfl

lemma endTest_conversationMode (snap s : AppState) :
    (endTest snap s).conversationMode = s.conversationMode := by
  unfold endTest
  cases snap.testSession with
  | none => rfl
  | some x =>
      dsimp only
      split <;> rfl

lemma endTest_allTranscriptions (snap s : AppState) :
    (endTest snap s).allTranscriptions = s.allTranscriptions := by
  unfold endTest
  cases snap.testSession with
  | none => rfl
  | some x =>
      dsimp only
      split <;> rfl

lemma endTest_testSession_some (snap s : AppState) (x : TestSession)
    (h : snap.testSession = some x) :
    (endTest snap s).testSession
      = s.testSession.map (fun ss : TestSession => { ss with isComplete := true }) := by
  unfold endTest
  rw [h]
  dsimp only
  split <;> rfl

lemma endTest_testComplete_some (snap s : AppState) (x : TestSession)
    (h : snap.testSession = some x) :
    (endTest snap s).testComplete = true := by
  unfold endTest
  rw [h]
  dsimp only
  split <;> rfl

lemma endTest_scoringCalls_some (snap s : AppState) (x : TestSession)
    (h : snap.testSession = some x)
    (hnb : strTrim (joinSpace snap.allTranscriptions) ≠ "") :
    (endTest snap s).scoringCalls = s.scoringCalls ++ [joinSpace snap.allTranscriptions] := by
  unfold endTest
  rw [h]
  dsimp only
  rw [if_pos hnb]

lemma endTest_scoringCalls_blank (snap s : AppState)
    (hb : strTrim (joinSpace snap.allTranscriptions) = "") :
    (endTest snap s).scoringCalls = s.scoringCalls := by
  unfold endTest
  cases snap.testSession with
  | none => rfl
  | some x =>
      dsimp only
      rw [if_neg (by simp [hb])]

lemma endTest_evaluation_some (snap s : AppState) (x : TestSession)
    (h : snap.testSession = some x)
    (hnb : strTrim (joinSpace snap.allTranscriptions) ≠ "") :
    (endTest snap s).evaluation = some (joinSpace snap.allTranscriptions, snap.testPart) := by
  unfold endTest
  rw [h]
  dsimp only
  rw [if_pos hnb]

lemma endTest_evaluation_blank (snap s : AppState)
    (hb : strTrim (joinSpace snap.allTranscriptions) = "") :
    (endTest snap s).evaluation = s.evaluation := by
  unfold endTest
  cases snap.testSession with
  | none => rfl
  | some x =>
      dsimp only
      rw [if_neg (by simp [hb])]

lemma timerTick_timeRemaining (s : AppState) :
    (timerTick s).timeRemaining
      = if s.timeRemaining ≤ 1 then 0 else s.timeRemaining - 1 := by
  unfold timerTick
  split <;> simp_all

lemma timerTick_conversationMode (s : AppState) :
    (timerTick s).conversationMode = s.conversationMode := by
  unfold timerTick
  split
  · exact endTest_conversationMode s s
  · rfl

lemma timerTick_allTranscriptions (s : AppState) :
    (timerTick s).allTranscriptions = s.allTranscriptions := by
  unfold timerTick
  split
  · exact endTest_allTranscriptions s s
  · rfl

/-! ## The session invariant and its preservation -/

lemma sessInv_map_complete (o : Option TestSession)
    (h : ∀ ss : TestSession, o = some ss → ss.questionsAsked ≤ ss.totalQuestions) :
    SessInv (o.map (fun ss : TestSession => { ss with isComplete := true })) := by
  cases o with
  | none => trivial
  | some ss => exact ⟨h ss rfl, fun hc => Bool.noConfusion hc⟩

lemma sessInv_qaBound (o : Option TestSession) (h : SessInv o) :
    ∀ ss : TestSession, o = some ss → ss.questionsAsked ≤ ss.totalQuestions := by
  intro ss hss
  cases o with
  | none => cases hss
  | some x => cases hss; exact h.1

lemma inv_endTest (snap s : AppState) (h : MachineInv s) : MachineInv (endTest snap s) := by
  refine ⟨by rw [endTest_timeRemaining]; exact h.1, ?_⟩
  cases hsnap : snap.testSession with
  | none => rw [endTest_none snap s hsnap]; exact h.2
  | some x =>
      rw [endTest_testSession_some snap s x hsnap]
      exact sessInv_map_complete _ (sessInv_qaBound _ h.2)

lemma inv_timerTick (s : AppState) (h : MachineInv s) : MachineInv (timerTick s) := by
  unfold timerTick
  split
  · exact ⟨by simp, (inv_endTest s s h).2⟩
  · next hgt =>
      refine ⟨?_, h.2⟩
      show (0 : Int) ≤ s.timeRemaining - 1
      omega

lemma inv_startSession (s : AppState) (part q : Nat)
    (hp : part = 1 ∨ part = 2 ∨ part = 3) : MachineInv (startSession s part q).1 := by
  rcases hp with rfl | rfl | rfl <;>
    exact ⟨by simp [startSession, initializeTestSession, IELTS_TIMING,
                    startConversationState, TimingEntry.durationMin],
           by simp [startSession, initializeTestSession, IELTS_TIMING,
                    startConversationState, TimingEntry.durationMin, SessInv]⟩

lemma inv_processUserResponsePre (s : AppState) (t : String) (h : MachineInv s) :
    MachineInv (processUserResponsePre s t).1 := by
  unfold processUserResponsePre
  cases hs : s.testSession with
  | none => exact ⟨h.1, h.2⟩
  | some sess =>
      dsimp only
      split
      · exact ⟨h.1, h.2⟩
      · next hopen =>
          have hfalse : sess.isComplete = false := by
            revert hopen
            cases sess.isComplete <;> simp
          have hlt : sess.questionsAsked < sess.totalQuestions := by
            have h2 := h.2
            rw [hs] at h2
            exact h2.2 hfalse
          split
          · next hdone =>
              refine ⟨?_, ?_⟩
              · rw [endTest_timeRemaining]
                exact h.1
              · rw [endTest_testSession_some _ _ sess hs]
                refine sessInv_map_complete _ ?_
                intro ss hss
                injection hss with hsse
                rw [← hsse]
                show sess.questionsAsked + 1 ≤ sess.totalQuestions
                omega
          · next hmore =>
              refine ⟨h.1, ?_, ?_⟩
              · show sess.questionsAsked + 1 ≤ sess.totalQuestions
                omega
              · intro _
                show sess.questionsAsked + 1 < sess.totalQuestions
                omega

lemma inv_dialogueContinuation (snap s : AppState) (d : DialogueResult) (h : MachineInv s) :
    MachineInv (dialogueContinuation snap s d) := by
  cases d with
  | httpError => exact ⟨h.1, h.2⟩
  | ok r tc =>
      cases tc with
      | true => exact inv_endTest snap s h
      | false => exact ⟨h.1, h.2⟩

lemma inv_processUserResponse (s : AppState) (t : String) (d : DialogueResult) (h : MachineInv s) :
    MachineInv (processUserResponse s t d).1 := by
  unfold processUserResponse
  dsimp only
  split
  · exact inv_dialogueContinuation _ _ _ (inv_processUserResponsePre s t h)
  · exact inv_processUserResponsePre s t h

lemma inv_stopConversationMode (s : AppState) (_h : MachineInv s) :
    MachineInv (stopConversationMode s) := ⟨le_refl 0, trivial⟩

lemma inv_step {s s' : AppState} (h : MachineInv s) (hs : Step s s') : MachineInv s' := by
  cases hs with
  | start part q hp => exact inv_startSession s part q hp
  | tick h1 h2 h3 => exact inv_timerTick s h
  | record t d => exact inv_processUserResponse s t d h
  | recordPre t => exact inv_processUserResponsePre s t h
  | dialogue snap d => exact inv_dialogueContinuation snap s d h
  | finalize => exact inv_endTest s s h
  | abort => exact inv_stopConversationMode s h

lemma reachable_inv {s : AppState} (h : Reachable s) : MachineInv s := by
  induction h with
  | init => exact ⟨le_refl 0, trivial⟩
  | step _ hs ih => exact inv_step ih hs

/-! ## Ticking a session down -/

lemma timerTick_done (s : AppState) (d : TestSession)
    (hs : s.testSession = some d) (hd : d.isComplete = true)
    (ht : s.allTranscriptions = []) (hc : s.scoringCalls = [])
    (hcm : s.testComplete = true) :
    (timerTick s).testSession = some d ∧
    (timerTick s).allTranscriptions = [] ∧
    (timerTick s).scoringCalls = [] ∧
    (timerTick s).testComplete = true := by
  have hdd : ({ d with isComplete := true } : TestSession) = d := by
    cases d
    simp_all
  unfold timerTick
  split
  · refine ⟨?_, ?_, ?_, ?_⟩
    · show (endTest s s).testSession = some d
      rw [endTest_testSession_some s s d hs, hs]
      simp [hdd]
    · show (endTest s s).allTranscriptions = []
      rw [endTest_allTranscriptions]
      exact ht
    · show (endTest s s).scoringCalls = []
      rw [endTest_scoringCalls_blank s s (by rw [ht]; decide)]
      exact hc
    · show (endTest s s).testComplete = true
      exact endTest_testComplete_some s s d hs
  · exact ⟨hs, ht, hc, hcm⟩

lemma timerTickIter_done (n : Nat) (s : AppState) (d : TestSession)
    (hs : s.testSession = some d) (hd : d.isComplete = true)
    (ht : s.allTranscriptions = []) (hc : s.scoringCalls = [])
    (hcm : s.testComplete = true) :
    (timerTick^[n] s).testSession = some d ∧
    (timerTick^[n] s).allTranscriptions = [] ∧
    (timerTick^[n] s).scoringCalls = [] ∧
    (timerTick^[n] s).testComplete = true := by
  induction n generalizing s with
  | zero =>
      simp only [Function.iterate_zero_apply]
      exact ⟨hs, ht, hc, hcm⟩
  | succ n ih =>
      rw [Function.iterate_succ_apply]
      have h1 := timerTick_done s d hs hd ht hc hcm
      exact ih (timerTick s) h1.1 h1.2.1 h1.2.2.1 h1.2.2.2

/-- Running the timer out on a session that has recorded no candidate
utterance: after enough ticks the session is complete, the question
count untouched, and no scoring call was ever issued. -/
lemma timerTickIter_empty (n : Nat) : ∀ (s : AppState) (sess : TestSession),
    s.testSession = some sess → s.allTranscriptions = [] → s.scoringCalls = [] →
    s.timeRemaining.toNat ≤ n → 1 ≤ n →
    (timerTick^[n] s).testSession = some { sess with isComplete := true } ∧
    (timerTick^[n] s).allTranscriptions = [] ∧
    (timerTick^[n] s).scoringCalls = [] ∧
    (timerTick^[n] s).testComplete = true := by
  induction n with
  | zero => intro s sess _ _ _ _ h1; omega
  | succ n ih =>
      intro s sess hs ht hc hn _
      rw [Function.iterate_succ_apply]
      by_cases htr : s.timeRemaining ≤ 1
      · have e1 : timerTick s = { endTest s s with timeRemaining := 0 } := by
          unfold timerTick
          rw [if_pos htr]
        refine timerTickIter_done n (timerTick s) { sess with isComplete := true }
          ?_ rfl ?_ ?_ ?_
        · rw [e1]
          show (endTest s s).testSession = _
          rw [endTest_testSession_some s s sess hs, hs]
          rfl
        · rw [e1]
          show (endTest s s).allTranscriptions = []
          rw [endTest_allTranscriptions]
          exact ht
        · rw [e1]
          show (endTest s s).scoringCalls = []
          rw [endTest_scoringCalls_blank s s (by rw [ht]; decide)]
          exact hc
        · rw [e1]
          show (endTest s s).testComplete = true
          exact endTest_testComplete_some s s sess hs
      · have e1 : timerTick s = { s with timeRemaining := s.timeRemaining - 1 } := by
          unfold timerTick
          rw [if_neg htr]
        refine ih (timerTick s) sess ?_ ?_ ?_ ?_ ?_
        · rw [e1]; exact hs
        · rw [e1]; exact ht
        · rw [e1]; exact hc
        · rw [e1]
          show (s.timeRemaining - 1).toNat ≤ n
          omega
        · omega

lemma timerTick_testSession_isSome (s : AppState) :
    (timerTick s).testSession.isSome = s.testSession.isSome := by
  unfold timerTick
  split
  · show (endTest s s).testSession.isSome = s.testSession.isSome
    cases hs : s.testSession with
    | none => rw [endTest_none s s hs, hs]
    | some x => rw [endTest_testSession_some s s x hs, hs]; rfl
  · rfl

/-- While the effect guard (page.tsx line 130) holds, ticks are genuine
events of the machine: `n` guarded ticks stay within `Reachable`. -/
lemma reachable_ticks (n : Nat) : ∀ s : AppState, Reachable s →
    s.conversationMode = true → s.testSession.isSome = true →
    (n : Int) ≤ s.timeRemaining → Reachable (timerTick^[n] s) := by
  induction n with
  | zero =>
      intro s hr _ _ _
      simpa using hr
  | succ n ih =>
      intro s hr hm hsome htr
      rw [Function.iterate_succ_apply]
      refine ih (timerTick s) (Reachable.step hr (Step.tick s hm hsome (by omega))) ?_ ?_ ?_
      · rw [timerTick_conversationMode]; exact hm
      · rw [timerTick_testSession_isSome]; exact hsome
      · rw [timerTick_timeRemaining]
        split
        · next hle => omega
        · next hgt => omega

/-- Ticks that leave time on the clock only decrement the counter. -/
lemma timerTickIter_decrement (n : Nat) : ∀ s : AppState, (n : Int) < s.timeRemaining →
    timerTick^[n] s = { s with timeRemaining := s.timeRemaining - (n : Int) } := by
  induction n with
  | zero =>
      intro s _
      simp only [Function.iterate_zero_apply, Nat.cast_zero, sub_zero]
  | succ n ih =>
      intro s h
      have htr : ¬ s.timeRemaining ≤ 1 := by
        push_cast at h
        omega
      have e1 : timerTick s = { s with timeRemaining := s.timeRemaining - 1 } := by
        unfold timerTick
        rw [if_neg htr]
      rw [Function.iterate_succ_apply, e1,
        ih { s with timeRemaining := s.timeRemaining - 1 } (by push_cast at h ⊢; omega)]
      simp only [AppState.mk.injEq, and_true, true_and]
      push_cast
      ring

/-! ## Claims -/

/-- Claim C1.  The claim asserts that recording the utterance that
exhausts the question count (Part 2: its single utterance) completes the
session, triggers finalization, and issues exactly one scoring call
containing that utterance's text.  The completion and finalization do
happen, but `endTest` reads `allTranscriptions` from the dispatching
handler's render closure, which does not contain the utterance just
pushed by `setAllTranscriptions(prev => [...prev, userText])`; for
Part 2 the closure transcript is empty, so no scoring call is issued at
all.  This theorem evaluates the code at the failing input:
start Part 2, record "hello". -/
theorem c1_part2_no_scoring_call :
    Reachable part2AfterUtterance ∧
    part2AfterUtterance.testComplete = true ∧
    part2AfterUtterance.testSession = some ⟨1, 1, 1, true⟩ ∧
    part2AfterUtterance.allTranscriptions = ["hello"] ∧
    part2AfterUtterance.scoringCalls = [] ∧
    part2AfterUtterance.evaluation = none := by
  refine ⟨?_, rfl, rfl, rfl, rfl, rfl⟩
  exact Reachable.step
    (Reachable.step Reachable.init (Step.start initState 2 0 (Or.inr (Or.inl rfl))))
    (Step.record _ "hello" (.ok "x" false))

/-- Claim C2, counterexample.  A Part-1 session whose six answers
exhaust the question count finalizes (one scoring call, with the
closure's five-answer transcript); the timer interval is not stopped by
completion, and when it reaches zero `endTest` runs a second time,
issuing a second scoring call and replacing the stored evaluation with a
different one — two scoring calls and two distinct stored evaluations on
one session, refuting at-most-once finalization. -/
theorem c2_counterexample :
    Reachable part1ExhaustedTimedOut ∧
    part1Exhausted.testComplete = true ∧
    part1Exhausted.scoringCalls = ["a b c d e"] ∧
    part1Exhausted.evaluation = some ("a b c d e", 1) ∧
    part1ExhaustedTimedOut.scoringCalls = ["a b c d e", "a b c d e f"] ∧
    part1ExhaustedTimedOut.evaluation = some ("a b c d e f", 1) := by
  have e239 : timerTick^[239] part1Exhausted
      = { part1Exhausted with timeRemaining := 1 } := by
    rw [timerTickIter_decrement 239 part1Exhausted (by decide)]
    have h1 : part1Exhausted.timeRemaining - ((239 : Nat) : Int) = 1 := by decide
    rw [h1]
  have e240 : part1ExhaustedTimedOut
      = timerTick { part1Exhausted with timeRemaining := 1 } := by
    show timerTick^[240] part1Exhausted = _
    rw [Function.iterate_succ_apply', e239]
  have hs1 : ({ part1Exhausted with timeRemaining := 1 } : AppState).testSession
      = some ⟨1, 6, 6, true⟩ := by decide
  have hnb : strTrim (joinSpace
      ({ part1Exhausted with timeRemaining := 1 } : AppState).allTranscriptions) ≠ "" := by
    decide
  have et : timerTick { part1Exhausted with timeRemaining := 1 }
      = { endTest { part1Exhausted with timeRemaining := 1 }
            { part1Exhausted with timeRemaining := 1 } with timeRemaining := 0 } := by
    unfold timerTick
    rw [if_pos (by decide)]
  refine ⟨?_, by decide, by decide, by decide, ?_, ?_⟩
  · have h0 : Reachable (startSession initState 1 0).1 :=
      Reachable.step Reachable.init (Step.start initState 1 0 (Or.inl rfl))
    have h1 : Reachable part1Exhausted :=
      Reachable.step (Reachable.step (Reachable.step (Reachable.step (Reachable.step
        (Reachable.step h0
          (Step.record _ "a" (.ok "Next question?" false)))
          (Step.record _ "b" (.ok "Next question?" false)))
          (Step.record _ "c" (.ok "Next question?" false)))
          (Step.record _ "d" (.ok "Next question?" false)))
          (Step.record _ "e" (.ok "Next question?" false)))
          (Step.record _ "f" (.ok "Next question?" false))
    exact reachable_ticks 240 part1Exhausted h1 (by decide) (by decide) (by decide)
  · rw [e240, et]
    dsimp only
    rw [endTest_scoringCalls_some _ _ ⟨1, 6, 6, true⟩ hs1 hnb]
    decide
  · rw [e240, et]
    dsimp only
    rw [endTest_evaluation_some _ _ ⟨1, 6, 6, true⟩ hs1 hnb]
    decide

/-- Claim C2 (amended): `endTest` has no completion guard, so
finalization is not idempotent.  Every finalization trigger on a session
object — already complete or not — appends a fresh scoring call (when the
closure transcript is non-blank) and overwrites the stored evaluation
with the evaluation of that transcript. -/
theorem c2_amended_every_trigger_scores (s : AppState) (x : TestSession)
    (hs : s.testSession = some x)
    (hnb : strTrim (joinSpace s.allTranscriptions) ≠ "") :
    (endTest s s).scoringCalls = s.scoringCalls ++ [joinSpace s.allTranscriptions] ∧
    (endTest s s).evaluation = some (joinSpace s.allTranscriptions, s.testPart) ∧
    (endTest s s).testComplete = true :=
  ⟨endTest_scoringCalls_some s s x hs hnb,
   endTest_evaluation_some s s x hs hnb,
   endTest_testComplete_some s s x hs⟩

/-- Witness for the amended C2 theorem at the already-finalized Part-1
session: re-triggering finalization issues one more scoring call. -/
theorem c2_witness :
    (endTest part1Exhausted part1Exhausted).scoringCalls
      = part1Exhausted.scoringCalls ++ [joinSpace part1Exhausted.allTranscriptions] ∧
    (endTest part1Exhausted part1Exhausted).evaluation
      = some (joinSpace part1Exhausted.allTranscriptions, part1Exhausted.testPart) ∧
    (endTest part1Exhausted part1Exhausted).testComplete = true :=
  c2_amended_every_trigger_scores part1Exhausted ⟨1, 6, 6, true⟩ (by decide) (by decide)

/-- Claim C3: for every reachable state of the machine, and hence after
every operation (start, tick, recording either kind of utterance,
finalize, abort), `questionsAsked ≤ totalQuestions` and
`timeRemaining ≥ 0`. -/
theorem c3_invariants (s : AppState) (h : Reachable s) :
    qaBound s.testSession = true ∧ 0 ≤ s.timeRemaining := by
  have hi := reachable_inv h
  refine ⟨?_, hi.1⟩
  cases hs : s.testSession with
  | none => rfl
  | some sess =>
      have h2 := hi.2
      rw [hs] at h2
      simpa [qaBound] using h2.1

/-- Witness for C3 at a concrete reachable state (a fresh Part-2 session). -/
theorem c3_witness :
    qaBound (startSession initState 2 0).1.testSession = true ∧
    0 ≤ (startSession initState 2 0).1.timeRemaining :=
  c3_invariants _
    (Reachable.step Reachable.init (Step.start initState 2 0 (Or.inr (Or.inl rfl))))

/-- Claim C4, counterexample.  Recording on a completed session returns
with no error at all (the guard is a bare `return`) — not an
`InvalidStateError`; and recording while the previous dialogue fetch is
still in flight (the spec's `AwaitingExaminer`) is not rejected either:
the utterance is appended to the transcript and a second dialogue fetch
is dispatched. -/
theorem c4_counterexample :
    (processUserResponse part2AfterUtterance " more" (.ok "y" false)).2 = none ∧
    (processUserResponse part2AfterUtterance " more" (.ok "y" false)).1 = part2AfterUtterance ∧
    (processUserResponsePre midSession "b").1.allTranscriptions = ["a", "b"] ∧
    (processUserResponsePre midSession "b").2 = true :=
  ⟨rfl, by decide, by decide, by decide⟩

/-- Claim C4 (amended): when the session is absent or complete, recording
a candidate utterance is silently ignored — no error of any kind is
raised and the state (transcript included) is unchanged. -/
theorem c4_amended_silent_ignore (s : AppState) (t : String) (d : DialogueResult)
    (h : s.testSession = none ∨
         ∃ sess : TestSession, s.testSession = some sess ∧ sess.isComplete = true) :
    processUserResponse s t d = (s, none) := by
  unfold processUserResponse processUserResponsePre
  rcases h with h | ⟨sess, h, hc⟩
  · rw [h]
    rfl
  · rw [h]
    simp [hc]

/-- Witness for the amended C4 theorem at the completed Part-2 session. -/
theorem c4_witness :
    processUserResponse part2AfterUtterance " more" (.ok "y" false)
      = (part2AfterUtterance, none) :=
  c4_amended_silent_ignore _ _ _ (Or.inr ⟨⟨1, 1, 1, true⟩, by decide, rfl⟩)

/-- Claim C5, counterexample: Part 1's policy installs
`totalQuestions = questionsPerTopic * topics = 3 * 2 = 6`, not 3 as the
claim states. -/
theorem c5_counterexample :
    startTotalQuestions 1 = some 6 ∧ startTotalQuestions 1 ≠ some 3 := by
  decide

/-- Claim C5 (amended): `start(part)` fixes `totalQuestions` from the
part's policy — Part 1: 6 (3 questions per topic × 2 topics), Part 2:
exactly 1, Part 3: 4. -/
theorem c5_amended_policy_table :
    startTotalQuestions 1 = some 6 ∧ startTotalQuestions 2 = some 1 ∧
    startTotalQuestions 3 = some 4 := by
  decide

/-- Claim C6: a session whose timer runs out before any candidate
utterance is recorded completes with `questionsAsked = 0` and finalize
issues no scoring call (the combined transcript is empty). -/
theorem c6_timeout_no_scoring (part q n : Nat)
    (hp : part = 1 ∨ part = 2 ∨ part = 3) (h1 : 1 ≤ n)
    (hn : ((startSession initState part q).1.timeRemaining).toNat ≤ n) :
    (timerTick^[n] (startSession initState part q).1).testComplete = true ∧
    (timerTick^[n] (startSession initState part q).1).scoringCalls = [] ∧
    sessionCompletedZero (timerTick^[n] (startSession initState part q).1) = true := by
  rcases hp with rfl | rfl | rfl
  · have h := timerTickIter_empty n (startSession initState 1 q).1 ⟨1, 0, 6, false⟩
      rfl rfl rfl hn h1
    exact ⟨h.2.2.2, h.2.2.1, by simp [sessionCompletedZero, h.1]⟩
  · have h := timerTickIter_empty n (startSession initState 2 q).1 ⟨1, 0, 1, false⟩
      rfl rfl rfl hn h1
    exact ⟨h.2.2.2, h.2.2.1, by simp [sessionCompletedZero, h.1]⟩
  · have h := timerTickIter_empty n (startSession initState 3 q).1 ⟨1, 0, 4, false⟩
      rfl rfl rfl hn h1
    exact ⟨h.2.2.2, h.2.2.1, by simp [sessionCompletedZero, h.1]⟩

/-- Witness for C6: a fresh Part-1 session ticked 240 times. -/
theorem c6_witness :
    (timerTick^[240] (startSession initState 1 0).1).testComplete = true ∧
    (timerTick^[240] (startSession initState 1 0).1).scoringCalls = [] ∧
    sessionCompletedZero (timerTick^[240] (startSession initState 1 0).1) = true :=
  c6_timeout_no_scoring 1 0 240 (Or.inl rfl) (by decide) (by decide)

/-- Claim C7, counterexample.  After `abort()` (which clears the session
and the conversation), the dialogue response still in flight for the
aborted session is not discarded: the continuation appends the examiner
message to the cleared conversation.  (The session object itself stays
`none`, so `AwaitingCandidate` is not re-entered — that half of the
claim holds.) -/
theorem c7_counterexample :
    Reachable staleArrival ∧
    abortedSession.conversation = [] ∧
    staleArrival.conversation = [Message.mk Role.assistant "And what about your family?"] ∧
    staleArrival.testSession = none := by
  refine ⟨?_, rfl, rfl, rfl⟩
  have h0 : Reachable midSession :=
    Reachable.step (Reachable.step Reachable.init (Step.start initState 1 0 (Or.inl rfl)))
      (Step.recordPre _ "a")
  exact Reachable.step (Reachable.step h0 (Step.abort _))
    (Step.dialogue _ midSession (.ok "And what about your family?" false))

/-- Claim C7 (amended): there is no session/generation guard, so a stale
dialogue response arriving after `abort()` is processed, not discarded: a
normal response is appended to the conversation; a `testComplete`
response triggers finalization against the stale closure snapshot —
setting `testComplete` and issuing a scoring call with the aborted
session's transcript.  Only the session object itself stays `none` (no
return to `AwaitingCandidate`). -/
theorem c7_amended_stale_processed (snap s : AppState) (r : String) (x : TestSession)
    (h : s.testSession = none) (hsnap : snap.testSession = some x)
    (hnb : strTrim (joinSpace snap.allTranscriptions) ≠ "") :
    (dialogueContinuation snap s (.ok r false)).conversation
      = s.conversation ++ [Message.mk Role.assistant r] ∧
    (dialogueContinuation snap s (.ok r false)).testSession = none ∧
    (dialogueContinuation snap s (.ok r true)).testComplete = true ∧
    (dialogueContinuation snap s (.ok r true)).scoringCalls
      = s.scoringCalls ++ [joinSpace snap.allTranscriptions] ∧
    (dialogueContinuation snap s (.ok r true)).testSession = none := by
  refine ⟨rfl, h, ?_, ?_, ?_⟩
  · exact endTest_testComplete_some snap s x hsnap
  · exact endTest_scoringCalls_some snap s x hsnap hnb
  · show (endTest snap s).testSession = none
    rw [endTest_testSession_some snap s x hsnap, h]
    rfl

/-- Witness for the amended C7 theorem at the aborted Part-1 session. -/
theorem c7_witness :
    (dialogueContinuation midSession abortedSession (.ok "Stale reply" false)).conversation
      = abortedSession.conversation ++ [Message.mk Role.assistant "Stale reply"] ∧
    (dialogueContinuation midSession abortedSession (.ok "Stale reply" false)).testSession
      = none ∧
    (dialogueContinuation midSession abortedSession (.ok "Stale reply" true)).testComplete
      = true ∧
    (dialogueContinuation midSession abortedSession (.ok "Stale reply" true)).scoringCalls
      = abortedSession.scoringCalls ++ [joinSpace midSession.allTranscriptions] ∧
    (dialogueContinuation midSession abortedSession (.ok "Stale reply" true)).testSession
      = none :=
  c7_amended_stale_processed midSession abortedSession "Stale reply" ⟨1, 1, 6, false⟩
    rfl (by decide) (by decide)

/-- Claim C8, counterexample: starting an undefined part (4) fails with
the JavaScript TypeError of dereferencing the undefined timing entry —
not with an `InvalidPartError` (no such error exists in the code) — and
constructs no session. -/
theorem c8_counterexample :
    startError 4 = some OpError.typeError ∧
    startError 4 ≠ some OpError.invalidPartError ∧
    startTotalQuestions 4 = none := by
  decide

/-- Claim C8 (amended): for every part outside {1,2,3}, `start` throws a
TypeError (undefined `IELTS_TIMING` lookup dereferenced) before any
session state is constructed. -/
theorem c8_amended_typeError (part : Nat)
    (h1 : part ≠ 1) (h2 : part ≠ 2) (h3 : part ≠ 3) :
    startError part = some OpError.typeError ∧ startTotalQuestions part = none := by
  have ht : IELTS_TIMING part = none := by
    match part with
    | 0 => rfl
    | 1 => exact absurd rfl h1
    | 2 => exact absurd rfl h2
    | 3 => exact absurd rfl h3
    | (n + 4) => rfl
  constructor <;>
    simp [startError, startTotalQuestions, initializeTestSession, ht, h1, h2]

/-- Witness for the amended C8 theorem at part 4. -/
theorem c8_witness :
    startError 4 = some OpError.typeError ∧ startTotalQuestions 4 = none :=
  c8_amended_typeError 4 (by decide) (by decide) (by decide)

/-- Claim C9, counterexample.  Unparseable model output is answered with
the very same generic failure (500, "Evaluation failed") as an upstream
model failure — no distinct `ScoringParseError` exists — and parseable
but non-conforming output is returned as the 200 payload without any
validation (null model content even yields the empty object `{}`). -/
theorem c9_counterexample :
    evaluatePOST "Hello" (.ok (.unparseable "not json")) = .err 500 "Evaluation failed" ∧
    evaluatePOST "Hello" (.ok (.unparseable "not json")) = evaluatePOST "Hello" (.error ()) ∧
    evaluatePOST "Hello" (.ok .nullContent) = .ok (.jobj []) :=
  ⟨rfl, rfl, rfl⟩

/-- Claim C9 (amended): the scoring route funnels every exception —
upstream failure or `JSON.parse` throw — into one catch answering the
generic 500 "Evaluation failed", and returns any parsed payload
unvalidated (the empty object when the model content is null). -/
theorem c9_amended_generic_failure (t raw : String) (v : Json) (h : t ≠ "") :
    evaluatePOST t (.ok (.unparseable raw)) = .err 500 "Evaluation failed" ∧
    evaluatePOST t (.error ()) = .err 500 "Evaluation failed" ∧
    evaluatePOST t (.ok (.parsed v)) = .ok v ∧
    evaluatePOST t (.ok .nullContent) = .ok (.jobj []) := by
  refine ⟨?_, ?_, ?_, ?_⟩ <;> (unfold evaluatePOST; rw [if_neg h])

/-- Witness for the amended C9 theorem. -/
theorem c9_witness :
    evaluatePOST "Hello" (.ok (.unparseable "oops")) = .err 500 "Evaluation failed" ∧
    evaluatePOST "Hello" (.error ()) = .err 500 "Evaluation failed" ∧
    evaluatePOST "Hello" (.ok (.parsed (.jstr "x"))) = .ok (.jstr "x") ∧
    evaluatePOST "Hello" (.ok .nullContent) = .ok (.jobj []) :=
  c9_amended_generic_failure "Hello" "oops" (.jstr "x") (by decide)

/-- Claim C10: with the API key configured, any conversation request
carrying a (non-empty) userResponse with
`questionsAsked ≥ totalQuestions` or `timeRemaining ≤ 0` — in particular
one omitting `questionsAsked`/`totalQuestions`, both defaulting to 0 —
is answered immediately with `testComplete: true` and the fixed closing
utterance, and the dialogue model is never invoked. -/
theorem c10_early_complete (req : ConvReq) (outcome : Except Unit (Option String))
    (hu : req.userResponse ≠ "")
    (hdone : req.questionsAsked ≥ req.totalQuestions ∨ req.timeRemaining ≤ 0) :
    conversationPOST true req outcome = (.complete closingUtterance, false) := by
  unfold conversationPOST
  rw [if_neg hu, if_neg (by simp), if_pos hdone]

/-- Witness for C10 at the claim's defaulted request (omitted
`questionsAsked`/`totalQuestions` destructure to 0). -/
theorem c10_witness :
    conversationPOST true
      { userResponse := "I like my hometown.", testPart := 1,
        questionsAsked := 0, totalQuestions := 0, timeRemaining := 100 }
      (.ok (some "And why is that?")) = (.complete closingUtterance, false) :=
  c10_early_complete _ _ (by decide) (Or.inl (by decide))
